import Mathlib

/-
Verification of the trajectory-integration and command-staleness core of
`src/arm_control.cpp` (a real-time motion-command bridge for a robot arm).

The embedding models the C++ doubles by exact rationals (ℚ), timestamps by
natural numbers counting steady-clock milliseconds (the code compares
`duration_cast<milliseconds>` values against a 100 ms threshold), and the
math-library functions `std::sqrt`, `std::cos`, `std::sin` by function
parameters `sqrtF cosF sinF : ℚ → ℚ`, so every definition stays executable
and the control flow of the source is mirrored exactly.
-/

namespace ArmControl

/-- A `std::array<double, 3>` (velocity vectors, delta vectors, axes). -/
structure Arr3 where
  v0 : ℚ
  v1 : ℚ
  v2 : ℚ
deriving DecidableEq

/-- A row-major `std::array<double, 9>` holding a 3x3 rotation matrix. -/
structure Arr9 where
  r0 : ℚ
  r1 : ℚ
  r2 : ℚ
  r3 : ℚ
  r4 : ℚ
  r5 : ℚ
  r6 : ℚ
  r7 : ℚ
  r8 : ℚ
deriving DecidableEq

/-- A row-major `std::array<double, 16>` holding a 4x4 homogeneous transform.
Translation lives at indices 3, 7, 11; the rotation submatrix at indices
0,1,2 / 4,5,6 / 8,9,10. -/
structure Arr16 where
  a0 : ℚ
  a1 : ℚ
  a2 : ℚ
  a3 : ℚ
  a4 : ℚ
  a5 : ℚ
  a6 : ℚ
  a7 : ℚ
  a8 : ℚ
  a9 : ℚ
  a10 : ℚ
  a11 : ℚ
  a12 : ℚ
  a13 : ℚ
  a14 : ℚ
  a15 : ℚ
deriving DecidableEq

/-- The `CmdType` enum of the source. -/
inductive CmdType where
  | xyzrpy_vel
  | pose_mat
  | joint_pose
deriving DecidableEq

/-- The shared command state guarded by `command_mutex`:
`linear_velocity_cmd`, `angular_velocity_cmd`, `pose_matrix_cmd`,
`joint_position_cmd`, `command_supressed`, `last_message_time`
(a steady-clock timestamp in milliseconds). -/
structure CommandState where
  linear_velocity_cmd : Arr3
  angular_velocity_cmd : Arr3
  pose_matrix_cmd : Arr16
  joint_position_cmd : List ℚ
  command_supressed : Bool
  last_message_time : ℕ
deriving DecidableEq

/-- An inbound ZeroMQ message as seen by the receive loop after transport.
`velocity`, `poseMat`, `jointPos` are the three recognized JSON shapes;
`unknown` is a message that parses as JSON but matches none of the three
key sets; `invalid` is a message whose bytes are not valid JSON at all
(`json::parse` throws on it). -/
inductive Msg where
  | velocity (lin ang : Arr3)
  | poseMat (m : Arr16)
  | jointPos (j : List ℚ)
  | unknown
  | invalid
deriving DecidableEq

/-- Result of one successfully handled receive iteration: the updated shared
command state, and whether the iteration wrote the
unknown-command line to stderr. -/
structure RecvStep where
  cmd : CommandState
  logged : Bool
deriving DecidableEq

/-- One iteration of the `zmq_receiver` loop body applied to one received
message at steady-clock time `now` (ms). An `Except.error` models an
exception escaping the loop body: there is no try/catch inside the lambda,
so `json::parse` throwing on invalid JSON propagates out of the thread
function and `std::terminate` ends the process — the loop does not continue. -/
def zmq_receiver_step (now : ℕ) (st : CommandState) : Msg → Except Unit RecvStep
  | .velocity lin ang =>
      .ok ⟨{ st with linear_velocity_cmd := lin, angular_velocity_cmd := ang,
                     command_supressed := false, last_message_time := now }, false⟩
  | .poseMat m =>
      .ok ⟨{ st with pose_matrix_cmd := m,
                     command_supressed := false, last_message_time := now }, false⟩
  | .jointPos j =>
      .ok ⟨{ st with joint_position_cmd := j,
                     command_supressed := true, last_message_time := now }, false⟩
  | .unknown => .ok ⟨st, true⟩
  | .invalid => .error ()

/-- `timeout_duration` = 100 ms. -/
def timeout_duration : ℕ := 100

/-- `max_linear_velocity` = 0.08 m/s. -/
def max_linear_velocity : ℚ := 8 / 100

/-- `max_angular_velocity` = 0.16 rad/s. -/
def max_angular_velocity : ℚ := 16 / 100

/-- The fixed nominal tick interval `double dt = 0.001` of `callback_cart`. -/
def dt : ℚ := 1 / 1000

/-- The numerical epsilon `1e-6` guarding the rotation update. -/
def rot_eps : ℚ := 1 / 1000000

/-- The staleness check performed inside the `command_mutex` block of
`callback_cart`: when more than `timeout_duration` ms have passed since
`last_message_time` and the command is not suppressed, the shared velocity
commands are zeroed, the shared suppressed flag is set, and the warning is
printed (second component `true`). Otherwise the state passes through. -/
def apply_timeout (callback_start : ℕ) (cmd : CommandState) : CommandState × Bool :=
  if callback_start - cmd.last_message_time > timeout_duration ∧
      cmd.command_supressed = false then
    ({ cmd with linear_velocity_cmd := ⟨0, 0, 0⟩,
                angular_velocity_cmd := ⟨0, 0, 0⟩,
                command_supressed := true }, true)
  else
    (cmd, false)

/-- The tool-frame axis remap of `useTCPMove`:
`v = {-v[2], v[1], v[0]}`. -/
def tcp_remap (v : Arr3) : Arr3 := ⟨-v.v2, v.v1, v.v0⟩

/-- Componentwise scaling `v[i] *= k`. -/
def scale3 (k : ℚ) (v : Arr3) : Arr3 := ⟨v.v0 * k, v.v1 * k, v.v2 * k⟩

/-- The 3x3-matrix–vector product used to rotate delta vectors into the base
frame when `useTCPMove` is set. -/
def mat3vec (A : Arr9) (v : Arr3) : Arr3 :=
  ⟨A.r0 * v.v0 + A.r1 * v.v1 + A.r2 * v.v2,
   A.r3 * v.v0 + A.r4 * v.v1 + A.r5 * v.v2,
   A.r6 * v.v0 + A.r7 * v.v1 + A.r8 * v.v2⟩

/-- The 3x3 product `new_rotation_matrix = delta_rotation_matrix *
current_rotation_matrix` written out as in the triple loop of the source. -/
def matmul3 (A B : Arr9) : Arr9 :=
  ⟨A.r0 * B.r0 + A.r1 * B.r3 + A.r2 * B.r6,
   A.r0 * B.r1 + A.r1 * B.r4 + A.r2 * B.r7,
   A.r0 * B.r2 + A.r1 * B.r5 + A.r2 * B.r8,
   A.r3 * B.r0 + A.r4 * B.r3 + A.r5 * B.r6,
   A.r3 * B.r1 + A.r4 * B.r4 + A.r5 * B.r7,
   A.r3 * B.r2 + A.r4 * B.r5 + A.r5 * B.r8,
   A.r6 * B.r0 + A.r7 * B.r3 + A.r8 * B.r6,
   A.r6 * B.r1 + A.r7 * B.r4 + A.r8 * B.r7,
   A.r6 * B.r2 + A.r7 * B.r5 + A.r8 * B.r8⟩

/-- Extraction of the `current_rotation_matrix` from a pose matrix
(indices 0,1,2 / 4,5,6 / 8,9,10). -/
def rotOf (t : Arr16) : Arr9 :=
  ⟨t.a0, t.a1, t.a2, t.a4, t.a5, t.a6, t.a8, t.a9, t.a10⟩

/-- The Rodrigues rotation matrix built in `callback_cart` from a unit axis
and an angle, with `c = cos angle`, `s = sin angle`, `t = 1 - c`. -/
def rodrigues (cosF sinF : ℚ → ℚ) (axis : Arr3) (angle : ℚ) : Arr9 :=
  let c := cosF angle
  let s := sinF angle
  let tc := 1 - c
  let x := axis.v0
  let y := axis.v1
  let z := axis.v2
  ⟨tc * x * x + c,     tc * x * y - s * z, tc * x * z + s * y,
   tc * x * y + s * z, tc * y * y + c,     tc * y * z - s * x,
   tc * x * z - s * y, tc * y * z + s * x, tc * z * z + c⟩

/-- Result of one invocation of `callback_cart`: the shared command state as
left behind by the tick, the persistent `target_pose_matrix` (which is also
the returned target), whether the staleness warning was printed, and the
values the local `linear_velocity` / `angular_velocity` variables were
given by the locked read (`none` on the `pose_mat` early return, which
never reads them). -/
structure TickResult where
  cmd : CommandState
  target_pose_matrix : Arr16
  warned : Bool
  linear_velocity_used : Option Arr3
  angular_velocity_used : Option Arr3
deriving DecidableEq

/-- One invocation of the Cartesian real-time callback `callback_cart`.
`callback_start` is the tick's steady-clock time in ms,
`current_posture_matrix` is `postureToTransArray` of the freshly queried
flange posture (used as integration base only when `useDesiredPose` is
false), `cmd` is the shared command state at the locked read, `target0`
the persistent `target_pose_matrix` from the previous tick. The source
constants are `useDesiredPose = true` and `useTCPMove = false`; both are
kept as parameters. -/
def callback_cart (sqrtF cosF sinF : ℚ → ℚ) (cmdType : CmdType)
    (useDesiredPose useTCPMove : Bool) (callback_start : ℕ)
    (current_posture_matrix : Arr16) (cmd : CommandState) (target0 : Arr16) :
    TickResult :=
  if cmdType = CmdType.pose_mat then
    { cmd := cmd, target_pose_matrix := cmd.pose_matrix_cmd, warned := false,
      linear_velocity_used := none, angular_velocity_used := none }
  else
    let tp1 := if useDesiredPose then target0 else current_posture_matrix
    let current_rotation_matrix := rotOf tp1
    let cmd1 := (apply_timeout callback_start cmd).1
    let warned := (apply_timeout callback_start cmd).2
    let lv := cmd1.linear_velocity_cmd
    let av := cmd1.angular_velocity_cmd
    let lv1 := if useTCPMove then tcp_remap lv else lv
    let av1 := if useTCPMove then tcp_remap av else av
    let lv2 := scale3 max_linear_velocity lv1
    let av2 := scale3 max_angular_velocity av1
    let delta_position := scale3 dt lv2
    let delta_position1 :=
      if useTCPMove then mat3vec current_rotation_matrix delta_position
      else delta_position
    let tp2 := { tp1 with a3 := tp1.a3 + delta_position1.v0,
                          a7 := tp1.a7 + delta_position1.v1,
                          a11 := tp1.a11 + delta_position1.v2 }
    let delta_rotation_vector := scale3 dt av2
    let drv1 :=
      if useTCPMove then mat3vec current_rotation_matrix delta_rotation_vector
      else delta_rotation_vector
    let angle := sqrtF (drv1.v0 * drv1.v0 + drv1.v1 * drv1.v1 + drv1.v2 * drv1.v2)
    let delta_rotation_matrix :=
      if angle > rot_eps then
        rodrigues cosF sinF ⟨drv1.v0 / angle, drv1.v1 / angle, drv1.v2 / angle⟩ angle
      else ⟨1, 0, 0, 0, 1, 0, 0, 0, 1⟩
    let new_rotation_matrix := matmul3 delta_rotation_matrix current_rotation_matrix
    let tp3 := { tp2 with a0 := new_rotation_matrix.r0, a1 := new_rotation_matrix.r1,
                          a2 := new_rotation_matrix.r2, a4 := new_rotation_matrix.r3,
                          a5 := new_rotation_matrix.r4, a6 := new_rotation_matrix.r5,
                          a8 := new_rotation_matrix.r6, a9 := new_rotation_matrix.r7,
                          a10 := new_rotation_matrix.r8 }
    { cmd := cmd1, target_pose_matrix := tp3, warned := warned,
      linear_velocity_used := some lv, angular_velocity_used := some av }

/-- `n` consecutive invocations of `callback_cart` in velocity mode
(`cmdType = xyzrpy_vel`, `useDesiredPose = true` as in the source), the
shared command state evolving only through the callback itself (no inbound
messages in between). `times i` is the steady-clock time of tick `i`,
`obs i` the queried posture matrix at tick `i`. -/
def iterate_cart (sqrtF cosF sinF : ℚ → ℚ) (useTCPMove : Bool) (times : ℕ → ℕ)
    (obs : ℕ → Arr16) (cmd : CommandState) (t : Arr16) : ℕ → CommandState × Arr16
  | 0 => (cmd, t)
  | n + 1 =>
      let p := iterate_cart sqrtF cosF sinF useTCPMove times obs cmd t n
      let r := callback_cart sqrtF cosF sinF CmdType.xyzrpy_vel true useTCPMove
        (times n) (obs n) p.1 p.2
      (r.cmd, r.target_pose_matrix)

/-- Run one velocity-mode tick per entry of `times` (no inbound messages in
between), collecting for each tick the triple
(warning printed?, local linear velocity read, local angular velocity read). -/
def runVelTicks (sqrtF cosF sinF : ℚ → ℚ) (useTCPMove : Bool) (obs : ℕ → Arr16) :
    List ℕ → CommandState → Arr16 →
      CommandState × Arr16 × List (Bool × Option Arr3 × Option Arr3)
  | [], cmd, t => (cmd, t, [])
  | now :: rest, cmd, t =>
      let r := callback_cart sqrtF cosF sinF CmdType.xyzrpy_vel true useTCPMove
        now (obs now) cmd t
      let out := runVelTicks sqrtF cosF sinF useTCPMove obs rest r.cmd r.target_pose_matrix
      (out.1, out.2.1, (r.warned, r.linear_velocity_used, r.angular_velocity_used) :: out.2.2)

/-- Flat-index access into a 4x4 transform array, `t[n]` for `n < 16`. -/
def Arr16.get (t : Arr16) : ℕ → ℚ
  | 0 => t.a0
  | 1 => t.a1
  | 2 => t.a2
  | 3 => t.a3
  | 4 => t.a4
  | 5 => t.a5
  | 6 => t.a6
  | 7 => t.a7
  | 8 => t.a8
  | 9 => t.a9
  | 10 => t.a10
  | 11 => t.a11
  | 12 => t.a12
  | 13 => t.a13
  | 14 => t.a14
  | 15 => t.a15
  | _ => 0

/-- Matrix entry `t[i*4 + j]` of the row-major transform array. -/
def Arr16.entry (t : Arr16) (i j : Fin 4) : ℚ := t.get (i.val * 4 + j.val)

/-- The 4x4 product `C[i*4+j] = Σ k, A[i*4+k] * B[k*4+j]` computed by the
triple loop at the `tcp_in_base` initialization, unrolled. -/
def matmul4 (A B : Arr16) : Arr16 :=
  ⟨A.a0 * B.a0 + A.a1 * B.a4 + A.a2 * B.a8 + A.a3 * B.a12,
   A.a0 * B.a1 + A.a1 * B.a5 + A.a2 * B.a9 + A.a3 * B.a13,
   A.a0 * B.a2 + A.a1 * B.a6 + A.a2 * B.a10 + A.a3 * B.a14,
   A.a0 * B.a3 + A.a1 * B.a7 + A.a2 * B.a11 + A.a3 * B.a15,
   A.a4 * B.a0 + A.a5 * B.a4 + A.a6 * B.a8 + A.a7 * B.a12,
   A.a4 * B.a1 + A.a5 * B.a5 + A.a6 * B.a9 + A.a7 * B.a13,
   A.a4 * B.a2 + A.a5 * B.a6 + A.a6 * B.a10 + A.a7 * B.a14,
   A.a4 * B.a3 + A.a5 * B.a7 + A.a6 * B.a11 + A.a7 * B.a15,
   A.a8 * B.a0 + A.a9 * B.a4 + A.a10 * B.a8 + A.a11 * B.a12,
   A.a8 * B.a1 + A.a9 * B.a5 + A.a10 * B.a9 + A.a11 * B.a13,
   A.a8 * B.a2 + A.a9 * B.a6 + A.a10 * B.a10 + A.a11 * B.a14,
   A.a8 * B.a3 + A.a9 * B.a7 + A.a10 * B.a11 + A.a11 * B.a15,
   A.a12 * B.a0 + A.a13 * B.a4 + A.a14 * B.a8 + A.a15 * B.a12,
   A.a12 * B.a1 + A.a13 * B.a5 + A.a14 * B.a9 + A.a15 * B.a13,
   A.a12 * B.a2 + A.a13 * B.a6 + A.a14 * B.a10 + A.a15 * B.a14,
   A.a12 * B.a3 + A.a13 * B.a7 + A.a14 * B.a11 + A.a15 * B.a15⟩

/-- The fixed tool-frame offset `tcp_frame`: identity rotation, 0.2 m along
the flange z axis. -/
def tcp_frame : Arr16 :=
  ⟨1, 0, 0, 0,
   0, 1, 0, 0,
   0, 0, 1, 1 / 5,
   0, 0, 0, 1⟩

/-- The startup seeding of `target_pose_matrix`: the triple loop computes
`tcp_in_base[i*4+j] = Σ k, target_pose_matrix[i*4+k] * tcp_frame[k*4+j]`,
i.e. the observed flange pose post-multiplied by `tcp_frame`. -/
def init_target (observed : Arr16) : Arr16 := matmul4 observed tcp_frame

/-- Modelled from the claim wording for comparison: the seed pose as the
claim states it, `toolOffset` pre-multiplied onto the observed pose
(`targetPose = toolOffset * observedPose`), entrywise. -/
def init_target_claim (observed : Arr16) (i j : Fin 4) : ℚ :=
  ∑ k : Fin 4, tcp_frame.entry i k * observed.entry k j

/-- The 4x4 identity transform, used as a concrete sample pose. -/
def idMat4 : Arr16 :=
  ⟨1, 0, 0, 0,
   0, 1, 0, 0,
   0, 0, 1, 0,
   0, 0, 0, 1⟩

/-- A concrete observed flange pose: rotation by 90 degrees about the base x
axis, zero translation. -/
def rot90x : Arr16 :=
  ⟨1, 0, 0, 0,
   0, 0, -1, 0,
   0, 1, 0, 0,
   0, 0, 0, 1⟩

/-- A concrete sample shared command state: nonzero linear velocity command,
not suppressed, last message at time 0. -/
def cmd0 : CommandState :=
  ⟨⟨1, 2, 3⟩, ⟨0, 0, 0⟩, idMat4, [], false, 0⟩

/-- The two shared data structures of the program. -/
inductive SharedVar where
  | commandState
  | poseMirror
deriving DecidableEq

/-- The two mutexes of the program. -/
inductive MutexId where
  | command_mutex
  | pose_mutex
deriving DecidableEq

/-- One access to a shared data structure, with the set of mutexes held at
that access. -/
structure SharedAccess where
  var : SharedVar
  isWrite : Bool
  locks : List MutexId
deriving DecidableEq

/-- The mutex that guards each shared structure in the source:
`command_mutex` for the command state, `pose_mutex` for the observed-pose
mirror. -/
def properLock : SharedVar → MutexId
  | .commandState => .command_mutex
  | .poseMirror => .pose_mutex

/-- Shared-state accesses performed by one invocation of `callback_joint`,
in program order: the writes of `current_posture` / `current_joint` and the
read of `joint_position_cmd` both sit in bare brace blocks that construct no
`lock_guard`, so no mutex is held at either access. -/
def callback_joint_accesses : List SharedAccess :=
  [⟨.poseMirror, true, []⟩,
   ⟨.commandState, false, []⟩]

/-- Shared-state accesses performed by one invocation of `callback_cart`, in
program order: the pose-mirror write under `lock_guard(pose_mutex)`, and the
command read (plus the possible staleness write-back) under
`lock_guard(command_mutex)`. -/
def callback_cart_accesses : List SharedAccess :=
  [⟨.poseMirror, true, [.pose_mutex]⟩,
   ⟨.commandState, false, [.command_mutex]⟩,
   ⟨.commandState, true, [.command_mutex]⟩]

/-- Shared-state accesses of one `zmq_receiver` message handler: the command
write under `lock_guard(command_mutex)`. -/
def zmq_receiver_accesses : List SharedAccess :=
  [⟨.commandState, true, [.command_mutex]⟩]

/-- Shared-state accesses of one `zmq_sender` publish iteration: the
pose-mirror read under `lock_guard(pose_mutex)`. -/
def zmq_sender_accesses : List SharedAccess :=
  [⟨.poseMirror, false, [.pose_mutex]⟩]

/-- A list of accesses follows the locking discipline when every access holds
the mutex that guards the structure it touches. -/
def wellLocked (l : List SharedAccess) : Bool :=
  l.all fun a => a.locks.contains (properLock a.var)

/-- In velocity mode the shared command state left behind by a tick is exactly
the output of the staleness check. -/
theorem callback_cart_vel_cmd (sqrtF cosF sinF : ℚ → ℚ) (udp utcp : Bool) (now : ℕ)
    (obsM : Arr16) (cmd : CommandState) (t : Arr16) :
    (callback_cart sqrtF cosF sinF CmdType.xyzrpy_vel udp utcp now obsM cmd t).cmd
      = (apply_timeout now cmd).1 := rfl

/-- In velocity mode the warning flag of a tick is exactly the warning output
of the staleness check. -/
theorem callback_cart_vel_warned (sqrtF cosF sinF : ℚ → ℚ) (udp utcp : Bool) (now : ℕ)
    (obsM : Arr16) (cmd : CommandState) (t : Arr16) :
    (callback_cart sqrtF cosF sinF CmdType.xyzrpy_vel udp utcp now obsM cmd t).warned
      = (apply_timeout now cmd).2 := rfl

/-- In velocity mode the local linear velocity a tick works with is the
post-staleness-check shared value. -/
theorem callback_cart_vel_lin (sqrtF cosF sinF : ℚ → ℚ) (udp utcp : Bool) (now : ℕ)
    (obsM : Arr16) (cmd : CommandState) (t : Arr16) :
    (callback_cart sqrtF cosF sinF CmdType.xyzrpy_vel udp utcp now obsM cmd t).linear_velocity_used
      = some (apply_timeout now cmd).1.linear_velocity_cmd := rfl

/-- In velocity mode the local angular velocity a tick works with is the
post-staleness-check shared value. -/
theorem callback_cart_vel_ang (sqrtF cosF sinF : ℚ → ℚ) (udp utcp : Bool) (now : ℕ)
    (obsM : Arr16) (cmd : CommandState) (t : Arr16) :
    (callback_cart sqrtF cosF sinF CmdType.xyzrpy_vel udp utcp now obsM cmd t).angular_velocity_used
      = some (apply_timeout now cmd).1.angular_velocity_cmd := rfl

/-- Velocity mode is not pose mode: the early-return test of `callback_cart`
fails in velocity mode. -/
theorem cmdType_vel_ne_pose : ¬(CmdType.xyzrpy_vel = CmdType.pose_mat) := by
  decide

/-- A suppressed command passes the staleness check untouched and without a
warning, whatever the tick time. -/
theorem apply_timeout_suppressed (now : ℕ) (cmd : CommandState)
    (hsupp : cmd.command_supressed = true) :
    apply_timeout now cmd = (cmd, false) := by
  unfold apply_timeout
  rw [if_neg]
  rintro ⟨_, hfalse⟩
  rw [hsupp] at hfalse
  exact Bool.noConfusion hfalse

/-- A fresh command (no more than `timeout_duration` ms old) passes the
staleness check untouched and without a warning. -/
theorem apply_timeout_fresh (now : ℕ) (cmd : CommandState)
    (hfresh : now - cmd.last_message_time ≤ timeout_duration) :
    apply_timeout now cmd = (cmd, false) := by
  unfold apply_timeout
  rw [if_neg]
  rintro ⟨hgt, _⟩
  omega

/-- Claim C1, counterexample: a message whose bytes are not valid JSON makes
`json::parse` throw; the receive-loop body has no try/catch, so the loop does
not continue (an uncaught exception ends the receiver thread and the
process). The claim predicts an `Except.ok` outcome for every malformed
message, but the code yields an exception. -/
theorem C1_counterexample :
    zmq_receiver_step 100 cmd0 Msg.invalid = Except.error () := rfl

/-- Claim C1 (amended): for every inbound message that is valid JSON but of
unrecognized shape, the ingestion worker logs it, discards it, leaves the
shared command state unchanged, and the loop continues; a message that is
not valid JSON instead raises an uncaught parse exception that terminates
the receive loop. -/
theorem C1_theorem (now : ℕ) (st : CommandState) :
    zmq_receiver_step now st Msg.unknown = Except.ok ⟨st, true⟩ ∧
    zmq_receiver_step now st Msg.invalid = Except.error () :=
  ⟨rfl, rfl⟩

/-- Claim C3, counterexample: the claim says an absolute-pose message sets
`suppressed = true`, but the handler for `pose_matrix` messages writes
`command_supressed = false`. -/
theorem C3_counterexample :
    (zmq_receiver_step 0 cmd0 (Msg.poseMat idMat4)).map (fun r => r.cmd.command_supressed)
      ≠ Except.ok true := by
  simp [zmq_receiver_step, Except.map]

/-- Claim C3 (amended): a velocity-shaped message writes `suppressed = false`,
an absolute-pose-shaped message also writes `suppressed = false`, and a
joint-target-shaped message writes `suppressed = true`. -/
theorem C3_theorem (now : ℕ) (st : CommandState) (lin ang : Arr3) (m : Arr16) (j : List ℚ) :
    (zmq_receiver_step now st (Msg.velocity lin ang)).map (fun r => r.cmd.command_supressed)
        = Except.ok false ∧
    (zmq_receiver_step now st (Msg.poseMat m)).map (fun r => r.cmd.command_supressed)
        = Except.ok false ∧
    (zmq_receiver_step now st (Msg.jointPos j)).map (fun r => r.cmd.command_supressed)
        = Except.ok true :=
  ⟨rfl, rfl, rfl⟩

/-- Claim C4, counterexample: when the staleness check fires, the shared
command state after the tick is not the state before the tick — the code
zeroes the shared velocity fields and sets the shared suppressed flag. -/
theorem C4_counterexample :
    (callback_cart id id id CmdType.xyzrpy_vel true false 200 idMat4 cmd0 idMat4).cmd
      ≠ cmd0 := by
  rw [callback_cart_vel_cmd]
  simp [apply_timeout, cmd0, timeout_duration]

/-- Claim C4 (amended): when the staleness check fires on a tick (command
older than 100 ms and not suppressed), the tick substitutes zero velocity
and does so by mutating the shared command state: it writes zeros into the
shared linear/angular velocity fields and sets the shared suppressed flag
to true (leaving pose, joint target and timestamp fields unchanged), so the
substitution is persistent rather than for this tick only; the warning is
emitted on this tick. -/
theorem C4_theorem (sqrtF cosF sinF : ℚ → ℚ) (udp utcp : Bool) (now : ℕ)
    (obsM : Arr16) (cmd : CommandState) (t : Arr16)
    (hstale : now - cmd.last_message_time > timeout_duration)
    (hsupp : cmd.command_supressed = false) :
    (callback_cart sqrtF cosF sinF CmdType.xyzrpy_vel udp utcp now obsM cmd t).cmd
      = { cmd with linear_velocity_cmd := ⟨0, 0, 0⟩,
                   angular_velocity_cmd := ⟨0, 0, 0⟩,
                   command_supressed := true } ∧
    (callback_cart sqrtF cosF sinF CmdType.xyzrpy_vel udp utcp now obsM cmd t).warned
      = true := by
  have hto : apply_timeout now cmd
      = ({ cmd with linear_velocity_cmd := ⟨0, 0, 0⟩,
                    angular_velocity_cmd := ⟨0, 0, 0⟩,
                    command_supressed := true }, true) := by
    unfold apply_timeout
    rw [if_pos (And.intro hstale hsupp)]
  exact ⟨by rw [callback_cart_vel_cmd, hto], by rw [callback_cart_vel_warned, hto]⟩

/-- Witness for C4 at a concrete stale, unsuppressed command. -/
theorem C4_witness :
    (callback_cart id id id CmdType.xyzrpy_vel true false 200 idMat4 cmd0 idMat4).cmd
      = { cmd0 with linear_velocity_cmd := ⟨0, 0, 0⟩,
                    angular_velocity_cmd := ⟨0, 0, 0⟩,
                    command_supressed := true } ∧
    (callback_cart id id id CmdType.xyzrpy_vel true false 200 idMat4 cmd0 idMat4).warned
      = true :=
  C4_theorem id id id true false 200 idMat4 cmd0 idMat4 (by decide) rfl

/-- Claim C5: in CartesianPose mode every tick returns the most recently
ingested pose matrix verbatim, for every elapsed time and whatever the
velocity fields hold, leaves the shared command state untouched, prints no
warning, and never reads the velocity commands — no integration step is
applied. -/
theorem C5_theorem (sqrtF cosF sinF : ℚ → ℚ) (useDesiredPose useTCPMove : Bool)
    (callback_start : ℕ) (obsM : Arr16) (cmd : CommandState) (target0 : Arr16) :
    callback_cart sqrtF cosF sinF CmdType.pose_mat useDesiredPose useTCPMove
        callback_start obsM cmd target0
      = { cmd := cmd, target_pose_matrix := cmd.pose_matrix_cmd, warned := false,
          linear_velocity_used := none, angular_velocity_used := none } := rfl

/-- Claim C9: the joint-mode callback does not follow the mutex discipline of
the Cartesian path. Its pose-mirror write and its command read sit in bare
brace blocks with no `lock_guard`, so they hold no mutex at all, while the
Cartesian callback, the receiver and the publisher all hold the proper
mutex at every shared access. -/
theorem C9_theorem :
    wellLocked callback_joint_accesses = false ∧
    (callback_joint_accesses.all fun a => a.locks.isEmpty) = true ∧
    wellLocked callback_cart_accesses = true ∧
    wellLocked zmq_receiver_accesses = true ∧
    wellLocked zmq_sender_accesses = true := by
  decide

/-- Claim C2: in CartesianVelocity mode, on a tick whose time since the last
received message exceeds 100 ms while the command is not suppressed, the
effective linear and angular velocities used by the tick are exactly zero
and the returned target pose — translation and rotation submatrix alike —
equals the previous tick's target pose. (`useDesiredPose = true` as in the
source; the tool-frame flag is arbitrary; `sqrtF 0 = 0` states that the
square root of zero is zero.) -/
theorem C2_theorem (sqrtF cosF sinF : ℚ → ℚ) (useTCPMove : Bool) (callback_start : ℕ)
    (obsM : Arr16) (cmd : CommandState) (t : Arr16)
    (hstale : callback_start - cmd.last_message_time > timeout_duration)
    (hsupp : cmd.command_supressed = false)
    (hsqrt : sqrtF 0 = 0) :
    (callback_cart sqrtF cosF sinF CmdType.xyzrpy_vel true useTCPMove
        callback_start obsM cmd t).linear_velocity_used = some ⟨0, 0, 0⟩ ∧
    (callback_cart sqrtF cosF sinF CmdType.xyzrpy_vel true useTCPMove
        callback_start obsM cmd t).angular_velocity_used = some ⟨0, 0, 0⟩ ∧
    (callback_cart sqrtF cosF sinF CmdType.xyzrpy_vel true useTCPMove
        callback_start obsM cmd t).target_pose_matrix = t := by
  have hto : apply_timeout callback_start cmd
      = ({ cmd with linear_velocity_cmd := ⟨0, 0, 0⟩,
                    angular_velocity_cmd := ⟨0, 0, 0⟩,
                    command_supressed := true }, true) := by
    unfold apply_timeout
    rw [if_pos (And.intro hstale hsupp)]
  refine ⟨?_, ?_, ?_⟩
  · rw [callback_cart_vel_lin, hto]
  · rw [callback_cart_vel_ang, hto]
  · norm_num [callback_cart, cmdType_vel_ne_pose, hto, tcp_remap, scale3,
      mat3vec, matmul3, rotOf, hsqrt, rot_eps]

/-- Witness for C2: a tick at 200 ms on a command last updated at 0 ms. -/
theorem C2_witness :
    (callback_cart id id id CmdType.xyzrpy_vel true false
        200 idMat4 cmd0 idMat4).linear_velocity_used = some ⟨0, 0, 0⟩ ∧
    (callback_cart id id id CmdType.xyzrpy_vel true false
        200 idMat4 cmd0 idMat4).angular_velocity_used = some ⟨0, 0, 0⟩ ∧
    (callback_cart id id id CmdType.xyzrpy_vel true false
        200 idMat4 cmd0 idMat4).target_pose_matrix = idMat4 :=
  C2_theorem id id id false 200 idMat4 cmd0 idMat4 (by decide) rfl rfl

/-- One fresh velocity-mode tick with command `[1,0,0]` / `[0,0,0]` and the
tool-frame flag off advances the target translation by
`max_linear_velocity * dt` along x and changes nothing else. -/
theorem tick_fresh_unit_x (sqrtF cosF sinF : ℚ → ℚ) (now : ℕ) (obsM : Arr16)
    (cmd : CommandState) (t : Arr16)
    (hfresh : now - cmd.last_message_time ≤ timeout_duration)
    (hlin : cmd.linear_velocity_cmd = ⟨1, 0, 0⟩)
    (hang : cmd.angular_velocity_cmd = ⟨0, 0, 0⟩)
    (hsqrt : sqrtF 0 = 0) :
    callback_cart sqrtF cosF sinF CmdType.xyzrpy_vel true false now obsM cmd t =
      { cmd := cmd,
        target_pose_matrix := { t with a3 := t.a3 + max_linear_velocity * dt },
        warned := false,
        linear_velocity_used := some ⟨1, 0, 0⟩,
        angular_velocity_used := some ⟨0, 0, 0⟩ } := by
  have hto : apply_timeout now cmd = (cmd, false) := apply_timeout_fresh now cmd hfresh
  norm_num [callback_cart, cmdType_vel_ne_pose, hto, hlin, hang, hsqrt, tcp_remap,
    scale3, mat3vec, matmul3, rotOf, rot_eps]

/-- Iterating fresh velocity-mode ticks with command `[1,0,0]` / `[0,0,0]`
accumulates `n * (max_linear_velocity * dt)` of x translation and changes
nothing else, leaving the shared command untouched. -/
theorem iterate_cart_unit_x (sqrtF cosF sinF : ℚ → ℚ) (times : ℕ → ℕ) (obs : ℕ → Arr16)
    (cmd : CommandState) (t : Arr16)
    (hlin : cmd.linear_velocity_cmd = ⟨1, 0, 0⟩)
    (hang : cmd.angular_velocity_cmd = ⟨0, 0, 0⟩)
    (hsqrt : sqrtF 0 = 0) (n : ℕ)
    (hfresh : ∀ i, i < n → times i - cmd.last_message_time ≤ timeout_duration) :
    iterate_cart sqrtF cosF sinF false times obs cmd t n
      = (cmd, { t with a3 := t.a3 + n * (max_linear_velocity * dt) }) := by
  induction n with
  | zero =>
      simp [iterate_cart]
  | succ n ih =>
      have ihn := ih (fun i hi => hfresh i (Nat.lt_succ_of_lt hi))
      have htick := tick_fresh_unit_x sqrtF cosF sinF (times n) (obs n) cmd
        { t with a3 := t.a3 + n * (max_linear_velocity * dt) }
        (hfresh n (Nat.lt_succ_self n)) hlin hang hsqrt
      simp only [iterate_cart, ihn, htick]
      push_cast
      ring_nf

/-- Claim C6: with the tool-frame flag off, holding the command
`linearVelocity = [1,0,0]`, `angularVelocity = [0,0,0]` fresh for exactly
1000 ticks of the fixed 1 ms nominal interval moves the target exactly
`max_linear_velocity * 1` along x, leaves y and z unchanged and leaves the
rotation submatrix unchanged. -/
theorem C6_theorem (sqrtF cosF sinF : ℚ → ℚ) (times : ℕ → ℕ) (obs : ℕ → Arr16)
    (cmd : CommandState) (t : Arr16)
    (hfresh : ∀ i, i < 1000 → times i - cmd.last_message_time ≤ timeout_duration)
    (hlin : cmd.linear_velocity_cmd = ⟨1, 0, 0⟩)
    (hang : cmd.angular_velocity_cmd = ⟨0, 0, 0⟩)
    (hsqrt : sqrtF 0 = 0) :
    (iterate_cart sqrtF cosF sinF false times obs cmd t 1000).2.a3
        = t.a3 + max_linear_velocity * 1 ∧
    (iterate_cart sqrtF cosF sinF false times obs cmd t 1000).2.a7 = t.a7 ∧
    (iterate_cart sqrtF cosF sinF false times obs cmd t 1000).2.a11 = t.a11 ∧
    rotOf (iterate_cart sqrtF cosF sinF false times obs cmd t 1000).2 = rotOf t := by
  have h := iterate_cart_unit_x sqrtF cosF sinF times obs cmd t hlin hang hsqrt 1000 hfresh
  rw [h]
  norm_num [max_linear_velocity, dt, rotOf]

/-- Witness for C6 at a concrete fresh command held over 1000 ticks. -/
theorem C6_witness :
    (iterate_cart id id id false (fun _ => 0) (fun _ => idMat4)
        ⟨⟨1, 0, 0⟩, ⟨0, 0, 0⟩, idMat4, [], false, 0⟩ idMat4 1000).2.a3
      = idMat4.a3 + max_linear_velocity * 1 ∧
    (iterate_cart id id id false (fun _ => 0) (fun _ => idMat4)
        ⟨⟨1, 0, 0⟩, ⟨0, 0, 0⟩, idMat4, [], false, 0⟩ idMat4 1000).2.a7 = idMat4.a7 ∧
    (iterate_cart id id id false (fun _ => 0) (fun _ => idMat4)
        ⟨⟨1, 0, 0⟩, ⟨0, 0, 0⟩, idMat4, [], false, 0⟩ idMat4 1000).2.a11 = idMat4.a11 ∧
    rotOf (iterate_cart id id id false (fun _ => 0) (fun _ => idMat4)
        ⟨⟨1, 0, 0⟩, ⟨0, 0, 0⟩, idMat4, [], false, 0⟩ idMat4 1000).2 = rotOf idMat4 :=
  C6_theorem id id id (fun _ => 0) (fun _ => idMat4)
    ⟨⟨1, 0, 0⟩, ⟨0, 0, 0⟩, idMat4, [], false, 0⟩ idMat4
    (fun _ _ => Nat.zero_le _) rfl rfl rfl

/-- The `delta_rotation_vector` a velocity-mode tick computes with the
tool-frame flag off: the post-staleness-check angular velocity command,
scaled by `max_angular_velocity` and by the fixed tick interval `dt`. -/
def drv_of (callback_start : ℕ) (cmd : CommandState) : Arr3 :=
  scale3 dt (scale3 max_angular_velocity (apply_timeout callback_start cmd).1.angular_velocity_cmd)

/-- The rotation `angle` a velocity-mode tick computes with the tool-frame
flag off: the square root of the squared norm of `delta_rotation_vector`. -/
def angle_of (sqrtF : ℚ → ℚ) (callback_start : ℕ) (cmd : CommandState) : ℚ :=
  sqrtF ((drv_of callback_start cmd).v0 * (drv_of callback_start cmd).v0 +
         (drv_of callback_start cmd).v1 * (drv_of callback_start cmd).v1 +
         (drv_of callback_start cmd).v2 * (drv_of callback_start cmd).v2)

/-- Claim C7: on every velocity-mode tick (tool-frame flag off,
`useDesiredPose = true` as in the source), with `deltaRotationVector` the
scaled angular velocity times the fixed tick interval and `angle` its norm:
when `angle` exceeds 1e-6 the new rotation submatrix is the Rodrigues matrix
of the normalized axis and `angle`, left-multiplied onto the previous
rotation submatrix; when `angle` is at most 1e-6 the rotation submatrix is
unchanged. -/
theorem C7_theorem (sqrtF cosF sinF : ℚ → ℚ) (callback_start : ℕ) (obsM : Arr16)
    (cmd : CommandState) (t : Arr16) :
    rotOf (callback_cart sqrtF cosF sinF CmdType.xyzrpy_vel true false
        callback_start obsM cmd t).target_pose_matrix =
      if angle_of sqrtF callback_start cmd > rot_eps then
        matmul3
          (rodrigues cosF sinF
            ⟨(drv_of callback_start cmd).v0 / angle_of sqrtF callback_start cmd,
             (drv_of callback_start cmd).v1 / angle_of sqrtF callback_start cmd,
             (drv_of callback_start cmd).v2 / angle_of sqrtF callback_start cmd⟩
            (angle_of sqrtF callback_start cmd))
          (rotOf t)
      else rotOf t := by
  have h1 : rotOf (callback_cart sqrtF cosF sinF CmdType.xyzrpy_vel true false
      callback_start obsM cmd t).target_pose_matrix =
      matmul3
        (if angle_of sqrtF callback_start cmd > rot_eps then
          rodrigues cosF sinF
            ⟨(drv_of callback_start cmd).v0 / angle_of sqrtF callback_start cmd,
             (drv_of callback_start cmd).v1 / angle_of sqrtF callback_start cmd,
             (drv_of callback_start cmd).v2 / angle_of sqrtF callback_start cmd⟩
            (angle_of sqrtF callback_start cmd)
         else ⟨1, 0, 0, 0, 1, 0, 0, 0, 1⟩)
        (rotOf t) := rfl
  rw [h1]
  split
  · rfl
  · simp [matmul3, rotOf]

theorem fin4_val_zero : ((0 : Fin 4)).val = 0 := rfl

theorem fin4_val_one : ((1 : Fin 4)).val = 1 := rfl

theorem fin4_val_two : ((2 : Fin 4)).val = 2 := rfl

theorem fin4_val_three : ((3 : Fin 4)).val = 3 := rfl

/-- Claim C8, counterexample: at the concrete initial flange pose `rot90x`
(a 90-degree rotation about the base x axis) the seeded target differs from
the claim's pre-multiplication `toolOffset * observedPose`: the code's seed
has y translation `-1/5`, the claim's has `0`. -/
theorem C8_counterexample :
    (init_target rot90x).entry 1 3 ≠ init_target_claim rot90x 1 3 := by
  norm_num [init_target, init_target_claim, matmul4, Arr16.entry, Arr16.get,
    tcp_frame, rot90x, Fin.sum_univ_four, fin4_val_zero, fin4_val_one,
    fin4_val_two, fin4_val_three]

/-- Claim C8 (amended): the integrator's initial target pose equals the
initial observed flange pose post-multiplied by the fixed tool-frame offset
(`targetPose = observedPose * toolOffset` as 4x4 homogeneous transforms),
entry for entry. -/
theorem C8_theorem (observed : Arr16) (i j : Fin 4) :
    (init_target observed).entry i j
      = ∑ k : Fin 4, observed.entry i k * tcp_frame.entry k j := by
  fin_cases i <;> fin_cases j <;>
    simp [init_target, matmul4, Arr16.entry, Arr16.get, tcp_frame,
      Fin.sum_univ_four, fin4_val_zero, fin4_val_one, fin4_val_two,
      fin4_val_three]

/-- Claim C10: once the staleness timeout has fired — the shared command is
suppressed with zeroed velocity fields — every subsequent velocity-mode tick,
at any time and with no intervening inbound message, reads exactly zero
effective linear and angular velocity, never takes the warning branch again,
and leaves the shared command state as it is (so only a message handler can
clear the gate). -/
theorem C10_theorem (sqrtF cosF sinF : ℚ → ℚ) (useTCPMove : Bool) (obs : ℕ → Arr16)
    (times : List ℕ) (cmd : CommandState) (t : Arr16)
    (hsupp : cmd.command_supressed = true)
    (hlin : cmd.linear_velocity_cmd = ⟨0, 0, 0⟩)
    (hang : cmd.angular_velocity_cmd = ⟨0, 0, 0⟩) :
    (runVelTicks sqrtF cosF sinF useTCPMove obs times cmd t).1 = cmd ∧
    ∀ e ∈ (runVelTicks sqrtF cosF sinF useTCPMove obs times cmd t).2.2,
      e = (false, some (⟨0, 0, 0⟩ : Arr3), some (⟨0, 0, 0⟩ : Arr3)) := by
  induction times generalizing t with
  | nil =>
      exact ⟨rfl, by intro e he; cases he⟩
  | cons now rest ih =>
      have hto := apply_timeout_suppressed now cmd hsupp
      have hcm : (callback_cart sqrtF cosF sinF CmdType.xyzrpy_vel true useTCPMove
          now (obs now) cmd t).cmd = cmd := by
        rw [callback_cart_vel_cmd, hto]
      have hw : (callback_cart sqrtF cosF sinF CmdType.xyzrpy_vel true useTCPMove
          now (obs now) cmd t).warned = false := by
        rw [callback_cart_vel_warned, hto]
      have hl : (callback_cart sqrtF cosF sinF CmdType.xyzrpy_vel true useTCPMove
          now (obs now) cmd t).linear_velocity_used = some ⟨0, 0, 0⟩ := by
        rw [callback_cart_vel_lin, hto, hlin]
      have ha : (callback_cart sqrtF cosF sinF CmdType.xyzrpy_vel true useTCPMove
          now (obs now) cmd t).angular_velocity_used = some ⟨0, 0, 0⟩ := by
        rw [callback_cart_vel_ang, hto, hang]
      have ihr := ih ((callback_cart sqrtF cosF sinF CmdType.xyzrpy_vel true useTCPMove
          now (obs now) cmd t).target_pose_matrix)
      constructor
      · show (runVelTicks sqrtF cosF sinF useTCPMove obs rest _ _).1 = cmd
        rw [hcm]
        exact ihr.1
      · intro e he
        simp only [runVelTicks, hcm, List.mem_cons] at he
        rcases he with he | he
        · rw [he, hw, hl, ha]
        · exact ihr.2 e he

/-- Witness for C10: a post-timeout command run through three more ticks at
arbitrary times. -/
theorem C10_witness :
    (runVelTicks id id id false (fun _ => idMat4) [0, 500, 100000]
        ⟨⟨0, 0, 0⟩, ⟨0, 0, 0⟩, idMat4, [], true, 0⟩ idMat4).1
      = ⟨⟨0, 0, 0⟩, ⟨0, 0, 0⟩, idMat4, [], true, 0⟩ ∧
    ∀ e ∈ (runVelTicks id id id false (fun _ => idMat4) [0, 500, 100000]
        ⟨⟨0, 0, 0⟩, ⟨0, 0, 0⟩, idMat4, [], true, 0⟩ idMat4).2.2,
      e = (false, some (⟨0, 0, 0⟩ : Arr3), some (⟨0, 0, 0⟩ : Arr3)) :=
  C10_theorem id id id false (fun _ => idMat4) [0, 500, 100000]
    ⟨⟨0, 0, 0⟩, ⟨0, 0, 0⟩, idMat4, [], true, 0⟩ idMat4 rfl rfl rfl

end ArmControl
